import Mathlib

/-!
# Verification of `transformer_engine/common/normalization/kernel_traits.h`

Shallow embedding of the kernel configuration planner: the two trait
templates `Kernel_traits_finalize` and `Kernel_traits` from
`src/transformer_engine/common/normalization/kernel_traits.h`, together with
the acceptance predicates given by their `static_assert`s (a template
instantiation "is accepted" exactly when every `static_assert` holds and
every constant-expression division has a nonzero divisor; a division by
zero in a constant expression makes the instantiation ill-formed in C++).

Element types are represented by their `sizeof` in bytes (a `Nat`); the C++
guarantee `sizeof(T) >= 1` is part of the acceptance predicates, since no
instantiation with a real type can violate it.  All arithmetic on the
enumerated constants is carried out in `Nat`, matching the non-negative
integer arithmetic the compiler performs on these values.
-/

set_option autoImplicit false

namespace KernelTraits

/-- `sizeof(int)` on the target ABI (x86-64 / CUDA): 4 bytes.  The source's
`static_assert(sizeof(BYTES_PER_LDG) == 4, ...)` takes the size of the
unscoped-enum constant `BYTES_PER_LDG`, whose type is `int`, so the operand
of that assert is this constant, not the value of `BYTES_PER_LDG`. -/
def sizeofInt : Nat := 4

/-- `THREADS_PER_WARP` from `Kernel_traits_base`. -/
def THREADS_PER_WARP : Nat := 32

/-! ## `Kernel_traits_finalize`

Template parameters that the enumerated constants and `static_assert`s of
`Kernel_traits_finalize` actually depend on: `HIDDEN_SIZE_`,
`sizeof(weight_t_)`, `sizeof(compute_t_)`, `THREADS_PER_CTA_`,
`BYTES_PER_LDG_`. -/

structure FinalizeCfg where
  hidden : Nat   -- HIDDEN_SIZE_
  wsz : Nat      -- sizeof(weight_t_)
  csz : Nat      -- sizeof(compute_t_)
  threads : Nat  -- THREADS_PER_CTA_
  bytes : Nat    -- BYTES_PER_LDG_

namespace FinalizeCfg

/-- `ROWS_PER_CTA = Base::THREADS_PER_CTA / Base::THREADS_PER_WARP`. -/
def ROWS_PER_CTA (c : FinalizeCfg) : Nat := c.threads / THREADS_PER_WARP

/-- `ELTS_PER_LDG = BYTES_PER_LDG / sizeof(compute_t_)`. -/
def ELTS_PER_LDG (c : FinalizeCfg) : Nat := c.bytes / c.csz

/-- `BYTES_PER_STG = ELTS_PER_LDG * sizeof(weight_t_)`. -/
def BYTES_PER_STG (c : FinalizeCfg) : Nat := c.ELTS_PER_LDG * c.wsz

/-- `COLS = HIDDEN_SIZE_ * sizeof(compute_t_) / BYTES_PER_LDG`. -/
def COLS (c : FinalizeCfg) : Nat := c.hidden * c.csz / c.bytes

/-- `SMEM_BYTES_TRANSPOSE = Base::THREADS_PER_CTA * BYTES_PER_LDG`. -/
def SMEM_BYTES_TRANSPOSE (c : FinalizeCfg) : Nat := c.threads * c.bytes

/-- `SMEM_BYTES_OUTPUT = Base::THREADS_PER_WARP * BYTES_PER_LDG`. -/
def SMEM_BYTES_OUTPUT (c : FinalizeCfg) : Nat := THREADS_PER_WARP * c.bytes

/-- `SMEM_BYTES_PER_CTA = 2 * SMEM_BYTES_TRANSPOSE + 2 * SMEM_BYTES_OUTPUT`. -/
def SMEM_BYTES_PER_CTA (c : FinalizeCfg) : Nat :=
  2 * c.SMEM_BYTES_TRANSPOSE + 2 * c.SMEM_BYTES_OUTPUT

/-- `CTAS = COLS / Base::THREADS_PER_WARP`. -/
def CTAS (c : FinalizeCfg) : Nat := c.COLS / THREADS_PER_WARP

/-- The instantiation of `Kernel_traits_finalize` compiles: `sizeof` of the
element types is at least 1, constant-expression divisors are nonzero, and
the four `static_assert`s hold:
* `ROWS_PER_CTA <= THREADS_PER_WARP`;
* `sizeof(BYTES_PER_LDG) == 4` (size of the `int`-typed enum constant);
* `THREADS_PER_CTA == ROWS_PER_CTA * THREADS_PER_WARP`;
* `COLS * BYTES_PER_LDG == HIDDEN_SIZE_ * sizeof(compute_t_)`;
* `COLS % THREADS_PER_WARP == 0`. -/
def accept (c : FinalizeCfg) : Prop :=
  0 < c.wsz ∧ 0 < c.csz ∧ 0 < c.bytes ∧
  c.ROWS_PER_CTA ≤ THREADS_PER_WARP ∧
  sizeofInt = 4 ∧
  c.threads = c.ROWS_PER_CTA * THREADS_PER_WARP ∧
  c.COLS * c.bytes = c.hidden * c.csz ∧
  c.COLS % THREADS_PER_WARP = 0

instance (c : FinalizeCfg) : Decidable c.accept := by
  unfold accept; infer_instance

end FinalizeCfg

/-! ## `Kernel_traits`

Template parameters the enumerated constants and `static_assert`s of
`Kernel_traits` depend on: the four element sizes, `HIDDEN_SIZE_`,
`CTAS_PER_ROW_`, `WARPS_M_`, `WARPS_N_`, `BYTES_PER_LDG_` (default 16). -/

structure MainCfg where
  wsz : Nat         -- sizeof(weight_t_)
  isz : Nat         -- sizeof(input_t_)
  osz : Nat         -- sizeof(output_t_)
  csz : Nat         -- sizeof(compute_t_)
  hidden : Nat      -- HIDDEN_SIZE_
  ctasPerRow : Nat  -- CTAS_PER_ROW_
  warpsM : Nat      -- WARPS_M_
  warpsN : Nat      -- WARPS_N_
  bytes : Nat       -- BYTES_PER_LDG_ (defaulted to 16 by the template)

namespace MainCfg

/-- `COLS = HIDDEN_SIZE_`. -/
def COLS (c : MainCfg) : Nat := c.hidden

/-- `NUM_ELTS = BYTES_PER_LDG / sizeof(input_t)`. -/
def NUM_ELTS (c : MainCfg) : Nat := c.bytes / c.isz

/-- `THREADS_PER_ROW = WARPS_N * THREADS_PER_WARP`. -/
def THREADS_PER_ROW (c : MainCfg) : Nat := c.warpsN * THREADS_PER_WARP

/-- `THREADS_PER_CTA = WARPS_M * THREADS_PER_ROW`. -/
def THREADS_PER_CTA (c : MainCfg) : Nat := c.warpsM * c.THREADS_PER_ROW

/-- `ROWS_PER_CTA = WARPS_M`. -/
def ROWS_PER_CTA (c : MainCfg) : Nat := c.warpsM

/-- `BYTES_PER_ROW = COLS * sizeof(input_t)`. -/
def BYTES_PER_ROW (c : MainCfg) : Nat := c.COLS * c.isz

/-- `BYTES_PER_ROW_PER_CTA = THREADS_PER_ROW * BYTES_PER_LDG`. -/
def BYTES_PER_ROW_PER_CTA (c : MainCfg) : Nat := c.THREADS_PER_ROW * c.bytes

/-- `SMEM_BYTES_WGRAD = CTAS_PER_ROW > 1 ? 0 : ROWS_PER_CTA * COLS * sizeof(compute_t)`. -/
def SMEM_BYTES_WGRAD (c : MainCfg) : Nat :=
  if c.ctasPerRow > 1 then 0 else c.ROWS_PER_CTA * c.COLS * c.csz

/-- `ELTS_PER_LDG = BYTES_PER_LDG / sizeof(input_t)` (same value as `NUM_ELTS`). -/
def ELTS_PER_LDG (c : MainCfg) : Nat := c.bytes / c.isz

/-- `VEC_COLS_PER_LDG = CTAS_PER_ROW * THREADS_PER_ROW`. -/
def VEC_COLS_PER_LDG (c : MainCfg) : Nat := c.ctasPerRow * c.THREADS_PER_ROW

/-- `VEC_COLS = COLS / ELTS_PER_LDG`. -/
def VEC_COLS (c : MainCfg) : Nat := c.COLS / c.ELTS_PER_LDG

/-- `LDGS = VEC_COLS / VEC_COLS_PER_LDG`. -/
def LDGS (c : MainCfg) : Nat := c.VEC_COLS / c.VEC_COLS_PER_LDG

/-- The instantiation of `Kernel_traits` compiles: `sizeof` of the element
types is at least 1, the constant-expression divisors `ELTS_PER_LDG` (in
`VEC_COLS`) and `VEC_COLS_PER_LDG` (in `LDGS`) are nonzero, and the four
`static_assert`s hold:
* `WARPS_M == 1 || CTAS_PER_ROW == 1`;
* `sizeof(input_t) >= sizeof(output_t)`;
* `sizeof(input_t) >= sizeof(weight_t)`;
* `LDGS * VEC_COLS_PER_LDG == VEC_COLS`. -/
def accept (c : MainCfg) : Prop :=
  0 < c.wsz ∧ 0 < c.isz ∧ 0 < c.osz ∧ 0 < c.csz ∧
  0 < c.ELTS_PER_LDG ∧ 0 < c.VEC_COLS_PER_LDG ∧
  (c.warpsM = 1 ∨ c.ctasPerRow = 1) ∧
  c.osz ≤ c.isz ∧
  c.wsz ≤ c.isz ∧
  c.LDGS * c.VEC_COLS_PER_LDG = c.VEC_COLS

instance (c : MainCfg) : Decidable c.accept := by
  unfold accept; infer_instance

end MainCfg

end KernelTraits

/-! ## Claim theorems -/

namespace KernelTraits

/-- Projection lemma: an accepted `Kernel_traits` instantiation satisfies the
`static_assert` `LDGS * VEC_COLS_PER_LDG == VEC_COLS`. -/
theorem MainCfg.accept_ldgs {c : MainCfg} (h : c.accept) :
    c.LDGS * c.VEC_COLS_PER_LDG = c.VEC_COLS := by
  unfold MainCfg.accept at h
  exact h.2.2.2.2.2.2.2.2.2

/-- Projection lemma: an accepted `Kernel_traits_finalize` instantiation
satisfies `ROWS_PER_CTA <= THREADS_PER_WARP`, `COLS * BYTES_PER_LDG ==
HIDDEN_SIZE * sizeof(compute_t)` and `COLS % THREADS_PER_WARP == 0`. -/
theorem FinalizeCfg.accept_asserts {c : FinalizeCfg} (h : c.accept) :
    c.ROWS_PER_CTA ≤ THREADS_PER_WARP ∧
    c.COLS * c.bytes = c.hidden * c.csz ∧
    c.COLS % THREADS_PER_WARP = 0 := by
  unfold FinalizeCfg.accept at h
  exact ⟨h.2.2.2.1, h.2.2.2.2.2.2.1, h.2.2.2.2.2.2.2⟩

end KernelTraits

open KernelTraits

/-- C1: the claim says every `Kernel_traits_finalize` instantiation with
bytes-per-load different from 4 is rejected at resolution time.  The code
does not reject it: the `static_assert(sizeof(BYTES_PER_LDG) == 4, ...)`
takes the size of the `int`-typed enum constant, which is always 4, so the
assert is vacuous.  Witness: the instantiation with `HIDDEN_SIZE = 512`,
`sizeof(weight_t) = sizeof(compute_t) = 4`, `THREADS_PER_CTA = 128`,
`BYTES_PER_LDG = 8` passes every `static_assert` although its
bytes-per-load is 8, not 4. -/
theorem C1_finalize_accepts_non4_bytes :
    FinalizeCfg.accept ⟨512, 4, 4, 128, 8⟩ ∧
    (⟨512, 4, 4, 128, 8⟩ : FinalizeCfg).bytes ≠ 4 := by decide

/-- C2, counterexample: the claim requires every division performed by the
Main Resolver to be exact, in particular `hidden-size % elements-per-load
= 0`, and `LDGS * CTAS_PER_ROW * THREADS_PER_ROW` to equal the exact
quotient `hidden-size / elements-per-load`.  The accepted configuration
`hidden = 260`, element sizes (2,2,2,4), `CTAS_PER_ROW = WARPS_M = WARPS_N
= 1`, `BYTES_PER_LDG = 16` has `NUM_ELTS = 8` with `260 % 8 = 4 ≠ 0`, and
`LDGS * CTAS_PER_ROW * THREADS_PER_ROW * NUM_ELTS = 256 ≠ 260`: the code
never checks that `ELTS_PER_LDG` divides `COLS`. -/
theorem C2_counterexample :
    MainCfg.accept ⟨2, 2, 2, 4, 260, 1, 1, 1, 16⟩ ∧
    (⟨2, 2, 2, 4, 260, 1, 1, 1, 16⟩ : MainCfg).hidden %
      (⟨2, 2, 2, 4, 260, 1, 1, 1, 16⟩ : MainCfg).NUM_ELTS ≠ 0 ∧
    (⟨2, 2, 2, 4, 260, 1, 1, 1, 16⟩ : MainCfg).LDGS *
      (⟨2, 2, 2, 4, 260, 1, 1, 1, 16⟩ : MainCfg).ctasPerRow *
      (⟨2, 2, 2, 4, 260, 1, 1, 1, 16⟩ : MainCfg).THREADS_PER_ROW *
      (⟨2, 2, 2, 4, 260, 1, 1, 1, 16⟩ : MainCfg).NUM_ELTS ≠
      (⟨2, 2, 2, 4, 260, 1, 1, 1, 16⟩ : MainCfg).hidden := by decide

/-- C2, amended: for every accepted Main Resolver configuration,
`LDGS * CTAS_PER_ROW * THREADS_PER_ROW` equals the integer (floor) quotient
`hidden-size / elements-per-load` that the code computes; exactness of that
division is not enforced. -/
theorem C2_amended_tiling (c : MainCfg) (h : c.accept) :
    c.LDGS * c.ctasPerRow * c.THREADS_PER_ROW = c.hidden / c.NUM_ELTS := by
  have h10 := MainCfg.accept_ldgs h
  rw [Nat.mul_assoc]
  exact h10

/-- C2, witness for the amended theorem at an accepted configuration. -/
theorem C2_amended_tiling_witness :
    MainCfg.accept ⟨2, 2, 2, 4, 260, 1, 1, 1, 16⟩ ∧
    (⟨2, 2, 2, 4, 260, 1, 1, 1, 16⟩ : MainCfg).LDGS *
      (⟨2, 2, 2, 4, 260, 1, 1, 1, 16⟩ : MainCfg).ctasPerRow *
      (⟨2, 2, 2, 4, 260, 1, 1, 1, 16⟩ : MainCfg).THREADS_PER_ROW =
      (⟨2, 2, 2, 4, 260, 1, 1, 1, 16⟩ : MainCfg).hidden /
      (⟨2, 2, 2, 4, 260, 1, 1, 1, 16⟩ : MainCfg).NUM_ELTS :=
  ⟨by decide, C2_amended_tiling ⟨2, 2, 2, 4, 260, 1, 1, 1, 16⟩ (by decide)⟩

/-- C3, counterexample: the claim says the commented-out cross-check
`LDGS * BYTES_PER_ROW_PER_CTA * CTAS_PER_ROW == BYTES_PER_ROW` is implied
by the enforced constraints.  It is not: the accepted configuration
`hidden = 260`, element sizes (2,2,2,4), `CTAS_PER_ROW = WARPS_M = WARPS_N
= 1`, `BYTES_PER_LDG = 16` gives `LDGS * BYTES_PER_ROW_PER_CTA *
CTAS_PER_ROW = 512` while `BYTES_PER_ROW = 520`, because the enforced
constraints never require `ELTS_PER_LDG` to divide `COLS`. -/
theorem C3_counterexample :
    MainCfg.accept ⟨2, 2, 2, 4, 260, 1, 1, 1, 16⟩ ∧
    (⟨2, 2, 2, 4, 260, 1, 1, 1, 16⟩ : MainCfg).LDGS *
      (⟨2, 2, 2, 4, 260, 1, 1, 1, 16⟩ : MainCfg).BYTES_PER_ROW_PER_CTA *
      (⟨2, 2, 2, 4, 260, 1, 1, 1, 16⟩ : MainCfg).ctasPerRow ≠
      (⟨2, 2, 2, 4, 260, 1, 1, 1, 16⟩ : MainCfg).BYTES_PER_ROW := by decide

/-- C3, amended: the commented-out cross-check `LDGS * BYTES_PER_ROW_PER_CTA
* CTAS_PER_ROW = BYTES_PER_ROW` follows from the enforced constraints
together with exactness of the two divisions the claim's derivation uses:
`ELTS_PER_LDG` divides `COLS`, and `BYTES_PER_LDG` is the exact product
`ELTS_PER_LDG * sizeof(input_t)`.  Without those extra hypotheses it can
fail on an accepted configuration. -/
theorem C3_amended_cross_check (c : MainCfg) (h : c.accept)
    (hdiv : c.COLS % c.ELTS_PER_LDG = 0)
    (hb : c.ELTS_PER_LDG * c.isz = c.bytes) :
    c.LDGS * c.BYTES_PER_ROW_PER_CTA * c.ctasPerRow = c.BYTES_PER_ROW := by
  have h10 := MainCfg.accept_ldgs h
  have hdvd : c.ELTS_PER_LDG ∣ c.COLS := Nat.dvd_of_mod_eq_zero hdiv
  calc c.LDGS * c.BYTES_PER_ROW_PER_CTA * c.ctasPerRow
      = c.LDGS * (c.ctasPerRow * c.THREADS_PER_ROW) * c.bytes := by
        unfold MainCfg.BYTES_PER_ROW_PER_CTA; ring
    _ = c.VEC_COLS * c.bytes := congrArg (· * c.bytes) h10
    _ = c.COLS / c.ELTS_PER_LDG * (c.ELTS_PER_LDG * c.isz) := by
        rw [hb]; rfl
    _ = c.BYTES_PER_ROW := by
        rw [← Nat.mul_assoc, Nat.div_mul_cancel hdvd]
        rfl

/-- C3, witness for the amended theorem: an accepted configuration with both
divisions exact (`hidden = 1024`, element sizes (2,2,2,4), `CTAS_PER_ROW =
WARPS_M = 1`, `WARPS_N = 4`, `BYTES_PER_LDG = 16`). -/
theorem C3_amended_cross_check_witness :
    MainCfg.accept ⟨2, 2, 2, 4, 1024, 1, 1, 4, 16⟩ ∧
    (⟨2, 2, 2, 4, 1024, 1, 1, 4, 16⟩ : MainCfg).LDGS *
      (⟨2, 2, 2, 4, 1024, 1, 1, 4, 16⟩ : MainCfg).BYTES_PER_ROW_PER_CTA *
      (⟨2, 2, 2, 4, 1024, 1, 1, 4, 16⟩ : MainCfg).ctasPerRow =
      (⟨2, 2, 2, 4, 1024, 1, 1, 4, 16⟩ : MainCfg).BYTES_PER_ROW :=
  ⟨by decide,
   C3_amended_cross_check ⟨2, 2, 2, 4, 1024, 1, 1, 4, 16⟩ (by decide)
     (by decide) (by decide)⟩

/-- C4: for every accepted `Kernel_traits` configuration, `WARPS_M > 1`
implies `CTAS_PER_ROW = 1`, and any configuration with both `WARPS_M > 1`
and `CTAS_PER_ROW > 1` fails the `static_assert(WARPS_M == 1 ||
CTAS_PER_ROW == 1)` and is rejected. -/
theorem C4_warps_ctas_exclusive (c : MainCfg) :
    (c.accept → 1 < c.warpsM → c.ctasPerRow = 1) ∧
    (1 < c.warpsM → 1 < c.ctasPerRow → ¬c.accept) := by
  constructor
  · intro h hm
    unfold MainCfg.accept at h
    rcases h.2.2.2.2.2.2.1 with hm1 | hc1
    · omega
    · exact hc1
  · intro hm hc h
    unfold MainCfg.accept at h
    rcases h.2.2.2.2.2.2.1 with hm1 | hc1 <;> omega

/-- C4, witness: the configuration `hidden = 1024`, element sizes
(2,2,2,4), `CTAS_PER_ROW = 1`, `WARPS_M = 2`, `WARPS_N = 4` is accepted
with `WARPS_M > 1`, so the first implication applies; flipping
`CTAS_PER_ROW` to 2 triggers the rejection implication. -/
theorem C4_warps_ctas_exclusive_witness :
    (⟨2, 2, 2, 4, 1024, 1, 2, 4, 16⟩ : MainCfg).ctasPerRow = 1 ∧
    ¬MainCfg.accept ⟨2, 2, 2, 4, 1024, 2, 2, 4, 16⟩ :=
  ⟨(C4_warps_ctas_exclusive ⟨2, 2, 2, 4, 1024, 1, 2, 4, 16⟩).1
     (by decide) (by decide),
   (C4_warps_ctas_exclusive ⟨2, 2, 2, 4, 1024, 2, 2, 4, 16⟩).2
     (by decide) (by decide)⟩

/-- C5: for every accepted `Kernel_traits` configuration, the
weight-gradient shared-memory size is 0 when `CTAS_PER_ROW > 1` and
`ROWS_PER_CTA * HIDDEN_SIZE * sizeof(compute_t)` when `CTAS_PER_ROW = 1`. -/
theorem C5_smem_wgrad (c : MainCfg) (_h : c.accept) :
    (1 < c.ctasPerRow → c.SMEM_BYTES_WGRAD = 0) ∧
    (c.ctasPerRow = 1 →
      c.SMEM_BYTES_WGRAD = c.ROWS_PER_CTA * c.hidden * c.csz) := by
  constructor
  · intro hc
    unfold MainCfg.SMEM_BYTES_WGRAD
    rw [if_pos hc]
  · intro hc
    unfold MainCfg.SMEM_BYTES_WGRAD
    rw [if_neg (by omega)]
    rfl

/-- C5, witness: the two branches evaluated at accepted configurations with
`CTAS_PER_ROW = 2` and `CTAS_PER_ROW = 1` respectively. -/
theorem C5_smem_wgrad_witness :
    (⟨2, 2, 2, 4, 2048, 2, 1, 4, 16⟩ : MainCfg).SMEM_BYTES_WGRAD = 0 ∧
    (⟨2, 2, 2, 4, 1024, 1, 1, 4, 16⟩ : MainCfg).SMEM_BYTES_WGRAD =
      (⟨2, 2, 2, 4, 1024, 1, 1, 4, 16⟩ : MainCfg).ROWS_PER_CTA * 1024 * 4 :=
  ⟨(C5_smem_wgrad ⟨2, 2, 2, 4, 2048, 2, 1, 4, 16⟩ (by decide)).1 (by decide),
   (C5_smem_wgrad ⟨2, 2, 2, 4, 1024, 1, 1, 4, 16⟩ (by decide)).2 (by decide)⟩

/-- C6: the Finalize Resolver computes `ROWS_PER_CTA = THREADS_PER_CTA / 32`
and rejects any configuration with `ROWS_PER_CTA > 32`; `THREADS_PER_CTA =
1024` gives `ROWS_PER_CTA = 32` and is accepted (at the boundary), while
`THREADS_PER_CTA = 2048` gives `ROWS_PER_CTA = 64` and is rejected for
every choice of the remaining parameters. -/
theorem C6_finalize_rows_per_cta :
    (∀ c : FinalizeCfg, c.accept →
      c.ROWS_PER_CTA = c.threads / 32 ∧ c.ROWS_PER_CTA ≤ 32) ∧
    (FinalizeCfg.accept ⟨1024, 4, 4, 1024, 4⟩ ∧
      (⟨1024, 4, 4, 1024, 4⟩ : FinalizeCfg).ROWS_PER_CTA = 32) ∧
    (∀ c : FinalizeCfg, c.threads = 2048 → ¬c.accept) := by
  refine ⟨fun c h => ⟨rfl, (FinalizeCfg.accept_asserts h).1⟩,
    ⟨by decide, by decide⟩, fun c ht h => ?_⟩
  have h4 := (FinalizeCfg.accept_asserts h).1
  unfold FinalizeCfg.ROWS_PER_CTA THREADS_PER_WARP at h4
  rw [ht] at h4
  omega

/-- C6, witness: the universally quantified parts applied at `THREADS_PER_CTA
= 1024` (accepted) and at a concrete `THREADS_PER_CTA = 2048` instantiation. -/
theorem C6_finalize_rows_per_cta_witness :
    ((⟨1024, 4, 4, 1024, 4⟩ : FinalizeCfg).ROWS_PER_CTA = 1024 / 32 ∧
      (⟨1024, 4, 4, 1024, 4⟩ : FinalizeCfg).ROWS_PER_CTA ≤ 32) ∧
    ¬FinalizeCfg.accept ⟨1024, 4, 4, 2048, 4⟩ :=
  ⟨C6_finalize_rows_per_cta.1 ⟨1024, 4, 4, 1024, 4⟩ (by decide),
   C6_finalize_rows_per_cta.2.2 ⟨1024, 4, 4, 2048, 4⟩ (by decide)⟩

/-- C7: for every accepted Finalize Resolver configuration both divisions
are exact — `HIDDEN_SIZE * sizeof(compute_t)` is divisible by
`BYTES_PER_LDG` (so `COLS` is an exact quotient) and `COLS` is divisible by
32 (so `CTAS = COLS / 32` is an exact quotient) — and any configuration for
which either division is inexact is rejected. -/
theorem C7_finalize_exact_divisions (c : FinalizeCfg) :
    (c.accept → (c.hidden * c.csz) % c.bytes = 0 ∧ c.COLS % 32 = 0) ∧
    ((c.hidden * c.csz) % c.bytes ≠ 0 ∨ c.COLS % 32 ≠ 0 → ¬c.accept) := by
  have key : c.accept → (c.hidden * c.csz) % c.bytes = 0 ∧ c.COLS % 32 = 0 := by
    intro h
    obtain ⟨hcols, hmod⟩ := (FinalizeCfg.accept_asserts h).2
    have hdvd : c.bytes ∣ c.hidden * c.csz := ⟨c.COLS, by rw [← hcols]; ring⟩
    exact ⟨Nat.mod_eq_zero_of_dvd hdvd, hmod⟩
  refine ⟨key, fun hne h => ?_⟩
  rcases hne with hne | hne
  · exact hne (key h).1
  · exact hne (key h).2

/-- C7, witness at the accepted configuration `HIDDEN_SIZE = 1024`,
`sizeof(compute_t) = 4`, `THREADS_PER_CTA = 1024`, `BYTES_PER_LDG = 4`. -/
theorem C7_finalize_exact_divisions_witness :
    (1024 * (⟨1024, 4, 4, 1024, 4⟩ : FinalizeCfg).csz) %
      (⟨1024, 4, 4, 1024, 4⟩ : FinalizeCfg).bytes = 0 ∧
    (⟨1024, 4, 4, 1024, 4⟩ : FinalizeCfg).COLS % 32 = 0 :=
  (C7_finalize_exact_divisions ⟨1024, 4, 4, 1024, 4⟩).1 (by decide)

/-- C8: for every accepted Finalize Resolver configuration the total
shared-memory size per CTA is `2 * (THREADS_PER_CTA * BYTES_PER_LDG) +
2 * (32 * BYTES_PER_LDG)`: double-buffered transpose region plus
double-buffered output-coalescing region. -/
theorem C8_finalize_smem (c : FinalizeCfg) (_h : c.accept) :
    c.SMEM_BYTES_PER_CTA =
      2 * (c.threads * c.bytes) + 2 * (32 * c.bytes) := rfl

/-- C8, witness at an accepted configuration. -/
theorem C8_finalize_smem_witness :
    (⟨1024, 4, 4, 1024, 4⟩ : FinalizeCfg).SMEM_BYTES_PER_CTA =
      2 * (1024 * 4) + 2 * (32 * 4) :=
  C8_finalize_smem ⟨1024, 4, 4, 1024, 4⟩ (by decide)

/-- C9: the concrete Main Resolver instantiation `HIDDEN_SIZE = 1024`,
input/output/weight element size 2, compute element size 4, `BYTES_PER_LDG
= 16`, `CTAS_PER_ROW = 1`, `WARPS_N = 4`, `WARPS_M = 1` is accepted with
`NUM_ELTS = 8`, `VEC_COLS = 128`, `THREADS_PER_ROW = 128`, `LDGS = 1`;
changing `WARPS_N` to 3 gives `THREADS_PER_ROW = 96`, and since 128 is not
a multiple of 96 the instantiation is rejected. -/
theorem C9_main_concrete_example :
    (MainCfg.accept ⟨2, 2, 2, 4, 1024, 1, 1, 4, 16⟩ ∧
      (⟨2, 2, 2, 4, 1024, 1, 1, 4, 16⟩ : MainCfg).NUM_ELTS = 8 ∧
      (⟨2, 2, 2, 4, 1024, 1, 1, 4, 16⟩ : MainCfg).VEC_COLS = 128 ∧
      (⟨2, 2, 2, 4, 1024, 1, 1, 4, 16⟩ : MainCfg).THREADS_PER_ROW = 128 ∧
      (⟨2, 2, 2, 4, 1024, 1, 1, 4, 16⟩ : MainCfg).LDGS = 1) ∧
    ((⟨2, 2, 2, 4, 1024, 1, 1, 3, 16⟩ : MainCfg).THREADS_PER_ROW = 96 ∧
      ¬MainCfg.accept ⟨2, 2, 2, 4, 1024, 1, 1, 3, 16⟩) := by decide

/-- C10: the Main Resolver rejects any configuration with
`sizeof(input_t) < sizeof(output_t)` or `sizeof(input_t) <
sizeof(weight_t)`, and every accepted configuration satisfies
`sizeof(input_t) >= sizeof(output_t)` and `sizeof(input_t) >=
sizeof(weight_t)`. -/
theorem C10_input_size_dominates (c : MainCfg) :
    (c.accept → c.osz ≤ c.isz ∧ c.wsz ≤ c.isz) ∧
    (c.isz < c.osz ∨ c.isz < c.wsz → ¬c.accept) := by
  have key : c.accept → c.osz ≤ c.isz ∧ c.wsz ≤ c.isz := by
    intro h
    unfold MainCfg.accept at h
    exact ⟨h.2.2.2.2.2.2.2.1, h.2.2.2.2.2.2.2.2.1⟩
  refine ⟨key, fun hlt h => ?_⟩
  rcases hlt with hlt | hlt
  · exact absurd (key h).1 (by omega)
  · exact absurd (key h).2 (by omega)

/-- C10, witness at an accepted configuration with strictly smaller output
and weight element sizes than the input element size. -/
theorem C10_input_size_dominates_witness :
    (⟨1, 2, 1, 4, 1024, 1, 1, 4, 16⟩ : MainCfg).osz ≤ 2 ∧
    (⟨1, 2, 1, 4, 1024, 1, 1, 4, 16⟩ : MainCfg).wsz ≤ 2 :=
  (C10_input_size_dominates ⟨1, 2, 1, 4, 1024, 1, 1, 4, 16⟩).1 (by decide)
